import Mathlib

/-!
Shallow embedding of the `incomeTaxNL` frontend tax-calculator layer:
the constants of `src/frontend/src/features/tax-calculator/constants/box1Defaults.js`
and the hook `useBox1Calculator` of
`src/frontend/src/features/tax-calculator/hooks/useBox1Calculator.js`.

JavaScript numbers are modelled as rationals (`ℚ`).  A JS property that may
be absent or `undefined` is an `Option ℚ`; `none` also stands for `NaN`
where an arithmetic operation on `undefined` would produce it.  The external
npm package `dutch-tax-income-calculator` is opaque to this repository, so
the `SalaryPaycheck` constructor (together with the subsequent field reads)
is a parameter of type `ExtCalc`: it either throws (`Except.error msg`) or
yields a result object (`Except.ok paycheck`) whose ~20 numeric properties
are each possibly absent.
-/

namespace IncomeTaxNL

/-- A row of the display breakdown: `{ description, amount }`. -/
structure Row where
  description : String
  amount : ℚ
  deriving DecidableEq

/-- The object returned by the external `SalaryPaycheck` constructor.
Every field is optional: `none` models an absent/`undefined` JS property. -/
structure Paycheck where
  grossYear : Option ℚ := none
  grossMonth : Option ℚ := none
  grossWeek : Option ℚ := none
  grossDay : Option ℚ := none
  grossHour : Option ℚ := none
  grossAllowance : Option ℚ := none
  taxableYear : Option ℚ := none
  taxFree : Option ℚ := none
  payrollTax : Option ℚ := none
  socialTax : Option ℚ := none
  generalCredit : Option ℚ := none
  labourCredit : Option ℚ := none
  incomeTax : Option ℚ := none
  incomeTaxMonth : Option ℚ := none
  netYear : Option ℚ := none
  netMonth : Option ℚ := none
  netWeek : Option ℚ := none
  netDay : Option ℚ := none
  netHour : Option ℚ := none
  netAllowance : Option ℚ := none
  deriving DecidableEq

/-- The destructured `inputs` of `useBox1Calculator` (all fields present after
the JS default-destructuring of line 57-66). -/
structure CalculationInputs where
  grossIncome : ℚ
  period : String
  hoursPerWeek : ℚ
  holidayAllowanceIncluded : Bool
  older : Bool
  ruling30Enabled : Bool
  ruling30Category : String
  socialSecurity : Bool
  deriving DecidableEq

/-- First positional argument of the `SalaryPaycheck` constructor
(lines 93-101 of the hook). -/
structure SalaryInput where
  income : ℚ
  allowance : Bool
  socialSecurity : Bool
  older : Bool
  hours : ℚ
  deriving DecidableEq

/-- Fourth positional argument of the `SalaryPaycheck` constructor
(lines 104-107 of the hook): the 30% ruling descriptor. -/
structure RulingSettings where
  checked : Bool
  choice : String
  deriving DecidableEq

/-- The external calculation: `SalaryPaycheck` construction plus the field
reads off the resulting object.  `Except.error msg` models any exception
raised by the external dependency. -/
abbrev ExtCalc : Type :=
  SalaryInput → String → Int → RulingSettings → Except String Paycheck

/-- The `details` object assembled on the success path (lines 114-138).
`yearlyInputIncome` is an `Option ℚ` because `convertToYearlyIncome` can
produce `NaN` (modelled `none`) for an unmapped period string; every field
read off the paycheck is defaulted with `?? 0` and hence a plain `ℚ`. -/
structure Details where
  inputIncome : ℚ
  inputPeriod : String
  yearlyInputIncome : Option ℚ
  grossYear : ℚ
  grossMonth : ℚ
  grossWeek : ℚ
  grossDay : ℚ
  grossHour : ℚ
  grossAllowance : ℚ
  taxableYear : ℚ
  taxFree : ℚ
  payrollTax : ℚ
  socialTax : ℚ
  generalCredit : ℚ
  labourCredit : ℚ
  incomeTax : ℚ
  incomeTaxMonth : ℚ
  netYear : ℚ
  netMonth : ℚ
  netWeek : ℚ
  netDay : ℚ
  netHour : ℚ
  netAllowance : ℚ
  deriving DecidableEq

/-- The value returned by the hook.  `error := none` models the absence of
the `error` property on the zero-income and success returns. -/
structure TaxSummary where
  taxableBase : ℚ
  estimatedTax : ℚ
  netIncome : ℚ
  breakdown : List Row
  details : Option Details
  error : Option String
  deriving DecidableEq

/-- `PERIOD_MULTIPLIERS` entry: a number, or the JS `null` marking hourly. -/
inductive MultiplierEntry where
  | num (m : ℚ)
  | null
  deriving DecidableEq

/-- `PERIOD_MULTIPLIERS` of `box1Defaults.js` (lines 30-36); `none` models an
absent key (JS `undefined` on lookup). -/
def PERIOD_MULTIPLIERS (period : String) : Option MultiplierEntry :=
  if period = "yearly" then some (.num 1)
  else if period = "monthly" then some (.num 12)
  else if period = "weekly" then some (.num 52)
  else if period = "daily" then some (.num 260)
  else if period = "hourly" then some .null
  else none

/-- `PERIOD_TO_START_FROM` of the hook (lines 14-20); `none` models an
absent key. -/
def PERIOD_TO_START_FROM (period : String) : Option String :=
  if period = "yearly" then some "Year"
  else if period = "monthly" then some "Month"
  else if period = "weekly" then some "Week"
  else if period = "daily" then some "Day"
  else if period = "hourly" then some "Hour"
  else none

/-- `rulingChoiceMap` of the hook (lines 86-90); `none` models an absent
key. -/
def rulingChoiceMap (category : String) : Option String :=
  if category = "researchWorker" then some "research"
  else if category = "youngProfessional" then some "young"
  else if category = "other" then some "normal"
  else none

/-- `convertToYearlyIncome` (lines 29-38).  Over `ℚ` the JS guard
`!income || income <= 0` collapses to `income ≤ 0` (`0` is the only falsy
rational).  An unmapped period multiplies by `undefined`, giving `NaN`,
modelled as `none`. -/
def convertToYearlyIncome (income : ℚ) (period : String) (hoursPerWeek : ℚ) :
    Option ℚ :=
  if income ≤ 0 then some 0
  else
    match PERIOD_MULTIPLIERS period with
    | some .null => some (income * hoursPerWeek * 52)
    | some (.num m) => some (income * m)
    | none => none

/-- `PERIOD_TO_START_FROM[period] || 'Year'` (line 82): every mapped value
is a non-empty (truthy) string, so `||` only fires on an absent key. -/
def startFromOf (period : String) : String :=
  (PERIOD_TO_START_FROM period).getD "Year"

/-- `rulingChoiceMap[ruling30Category] || 'normal'` (line 106): every mapped
value is a non-empty (truthy) string, so `||` only fires on an absent key. -/
def rulingChoiceOf (category : String) : String :=
  (rulingChoiceMap category).getD "normal"

/-- The external call made by the hook, with the translated arguments of
lines 92-108. -/
def extCall (ext : ExtCalc) (inputs : CalculationInputs) (year : Int) :
    Except String Paycheck :=
  ext
    { income := inputs.grossIncome
      allowance := inputs.holidayAllowanceIncluded
      socialSecurity := inputs.socialSecurity
      older := inputs.older
      hours := inputs.hoursPerWeek }
    (startFromOf inputs.period) year
    { checked := inputs.ruling30Enabled
      choice := rulingChoiceOf inputs.ruling30Category }

/-- The `details` object of lines 114-138, built from the paycheck with each
field defaulted independently by `?? 0`. -/
def mkDetails (inputs : CalculationInputs) (p : Paycheck) : Details :=
  { inputIncome := inputs.grossIncome
    inputPeriod := inputs.period
    yearlyInputIncome :=
      convertToYearlyIncome inputs.grossIncome inputs.period inputs.hoursPerWeek
    grossYear := p.grossYear.getD 0
    grossMonth := p.grossMonth.getD 0
    grossWeek := p.grossWeek.getD 0
    grossDay := p.grossDay.getD 0
    grossHour := p.grossHour.getD 0
    grossAllowance := p.grossAllowance.getD 0
    taxableYear := p.taxableYear.getD 0
    taxFree := p.taxFree.getD 0
    payrollTax := p.payrollTax.getD 0
    socialTax := p.socialTax.getD 0
    generalCredit := p.generalCredit.getD 0
    labourCredit := p.labourCredit.getD 0
    incomeTax := p.incomeTax.getD 0
    incomeTaxMonth := p.incomeTaxMonth.getD 0
    netYear := p.netYear.getD 0
    netMonth := p.netMonth.getD 0
    netWeek := p.netWeek.getD 0
    netDay := p.netDay.getD 0
    netHour := p.netHour.getD 0
    netAllowance := p.netAllowance.getD 0 }

/-- The ordered breakdown list of lines 141-194: fixed rows interleaved with
the three conditional spreads. -/
def mkBreakdown (inputs : CalculationInputs) (d : Details) : List Row :=
  [⟨"Gross annual income", d.grossYear⟩]
    ++ (if 0 < d.grossAllowance then
          [⟨"Holiday allowance (8%)", d.grossAllowance⟩] else [])
    ++ (if 0 < d.taxFree then
          [⟨"30% ruling tax-free amount", d.taxFree⟩] else [])
    ++ [⟨"Taxable income", d.taxableYear⟩, ⟨"Payroll tax", d.payrollTax⟩]
    ++ (if inputs.socialSecurity then
          [⟨"Social security contributions", d.socialTax⟩] else [])
    ++ [⟨"General tax credit", d.generalCredit⟩,
        ⟨"Labour tax credit", d.labourCredit⟩,
        ⟨"Total income tax", d.incomeTax⟩,
        ⟨"Net annual income", d.netYear⟩]

/-- The fixed empty summary returned on the zero-income path (lines 70-78). -/
def emptySummary : TaxSummary :=
  { taxableBase := 0, estimatedTax := 0, netIncome := 0,
    breakdown := [], details := none, error := none }

/-- `useBox1Calculator` (lines 56-225).  The memoized derivation is pure, so
the `useMemo` wrapper is transparent; over `ℚ` the JS guard
`!grossIncome || grossIncome <= 0` collapses to `grossIncome ≤ 0`. -/
def useBox1Calculator (ext : ExtCalc) (inputs : CalculationInputs)
    (year : Int) : TaxSummary :=
  if inputs.grossIncome ≤ 0 then emptySummary
  else
    match extCall ext inputs year with
    | .error msg =>
      { taxableBase := 0, estimatedTax := 0, netIncome := 0,
        breakdown := [], details := none, error := some msg }
    | .ok paycheck =>
      let d := mkDetails inputs paycheck
      { taxableBase := d.taxableYear
        estimatedTax := |d.incomeTax|
        netIncome := d.netYear
        breakdown := mkBreakdown inputs d
        details := some d
        error := none }

/-- Concrete inputs used by witnesses. -/
def wInputs (g : ℚ) : CalculationInputs :=
  { grossIncome := g, period := "yearly", hoursPerWeek := 40,
    holidayAllowanceIncluded := true, older := false,
    ruling30Enabled := false, ruling30Category := "other",
    socialSecurity := true }

/-- Concrete external calculator used by witnesses: always throws. -/
def wThrow : ExtCalc := fun _ _ _ _ => .error "boom"

/-- Claim C2: for every input with grossIncome ≤ 0 (or falsy, which over ℚ
is subsumed by ≤ 0), the Result Shaper returns the fixed empty TaxSummary,
and the result is the same for every external calculator — i.e. the
external calculator is never consulted. -/
theorem zero_income_short_circuit (ext : ExtCalc) (inputs : CalculationInputs)
    (year : Int) (h : inputs.grossIncome ≤ 0) :
    useBox1Calculator ext inputs year = emptySummary ∧
    (∀ ext2 : ExtCalc,
      useBox1Calculator ext inputs year = useBox1Calculator ext2 inputs year) := by
  constructor
  · simp [useBox1Calculator, h]
  · intro ext2
    simp [useBox1Calculator, h]

/-- Witness for C2 at grossIncome = 0 with a throwing external calculator. -/
theorem zero_income_short_circuit_witness :
    useBox1Calculator wThrow (wInputs 0) 2025 = emptySummary :=
  (zero_income_short_circuit wThrow (wInputs 0) 2025 (by norm_num [wInputs])).1

/-- Claim C3: for income i > 0 the Input Normalizer multiplies by 1, 12, 52,
260 for yearly, monthly, weekly, daily, and by hoursPerWeek × 52 for hourly;
for non-positive (or falsy) income it returns 0 for any period and hours. -/
theorem normalizer_table (i h : ℚ) (p : String) :
    (0 < i →
      convertToYearlyIncome i "yearly" h = some (i * 1) ∧
      convertToYearlyIncome i "monthly" h = some (i * 12) ∧
      convertToYearlyIncome i "weekly" h = some (i * 52) ∧
      convertToYearlyIncome i "daily" h = some (i * 260) ∧
      convertToYearlyIncome i "hourly" h = some (i * h * 52)) ∧
    (i ≤ 0 → convertToYearlyIncome i p h = some 0) := by
  constructor
  · intro hi
    have hn : ¬ i ≤ 0 := not_le.mpr hi
    refine ⟨?_, ?_, ?_, ?_, ?_⟩ <;>
      simp [convertToYearlyIncome, PERIOD_MULTIPLIERS, hn]
  · intro hle
    simp [convertToYearlyIncome, hle]

/-- Witness for C3 at i = 5, h = 40 (monthly) and i = -3 (unmapped period). -/
theorem normalizer_table_witness :
    convertToYearlyIncome 5 "monthly" 40 = some (5 * 12) ∧
    convertToYearlyIncome (-3) "anything" 40 = some 0 :=
  ⟨((normalizer_table 5 40 "anything").1 (by norm_num)).2.1,
   (normalizer_table (-3) 40 "anything").2 (by norm_num)⟩

/-- Claim C1: for grossIncome > 0, if the external call throws, the Result
Shaper returns the empty TaxSummary augmented with the (non-null) error
message; the embedding is a total function, so no exception escapes. -/
theorem error_recovery (ext : ExtCalc) (inputs : CalculationInputs)
    (year : Int) (msg : String) (hpos : 0 < inputs.grossIncome)
    (herr : extCall ext inputs year = .error msg) :
    useBox1Calculator ext inputs year =
      { taxableBase := 0, estimatedTax := 0, netIncome := 0,
        breakdown := [], details := none, error := some msg } ∧
    (useBox1Calculator ext inputs year).error ≠ none := by
  have hn : ¬ inputs.grossIncome ≤ 0 := not_le.mpr hpos
  constructor
  · simp [useBox1Calculator, hn, herr]
  · simp [useBox1Calculator, hn, herr]

/-- Witness for C1 at grossIncome = 60000 with a throwing calculator. -/
theorem error_recovery_witness :
    useBox1Calculator wThrow (wInputs 60000) 2025 =
      { taxableBase := 0, estimatedTax := 0, netIncome := 0,
        breakdown := [], details := none, error := some "boom" } :=
  (error_recovery wThrow (wInputs 60000) 2025 "boom"
    (by norm_num [wInputs]) rfl).1

/-- Claim C6: the period-to-selector translation falls back to "Year" for a
period outside the five mapped values, and the ruling-category translation
falls back to "normal" for a category outside the three mapped values. -/
theorem fallback_translation (period category : String)
    (hp : period ∉ ["yearly", "monthly", "weekly", "daily", "hourly"])
    (hc : category ∉ ["researchWorker", "youngProfessional", "other"]) :
    startFromOf period = "Year" ∧ rulingChoiceOf category = "normal" := by
  simp only [List.mem_cons, List.not_mem_nil, or_false, not_or] at hp hc
  obtain ⟨hp1, hp2, hp3, hp4, hp5⟩ := hp
  obtain ⟨hc1, hc2, hc3⟩ := hc
  constructor
  · simp [startFromOf, PERIOD_TO_START_FROM, hp1, hp2, hp3, hp4, hp5]
  · simp [rulingChoiceOf, rulingChoiceMap, hc1, hc2, hc3]

/-- Witness for C6 at the unmapped period "fortnightly" and category "expat". -/
theorem fallback_translation_witness :
    startFromOf "fortnightly" = "Year" ∧ rulingChoiceOf "expat" = "normal" :=
  fallback_translation "fortnightly" "expat" (by decide) (by decide)

/-- Concrete external calculator used by witnesses: always returns the given
paycheck. -/
def wOk (p : Paycheck) : ExtCalc := fun _ _ _ _ => .ok p

/-- Concrete paycheck used by witnesses: a few fields present, the rest
absent. -/
def wPaycheck : Paycheck :=
  { grossYear := some 60000, taxableYear := some 55556,
    incomeTax := some (-14000), netYear := some 41556,
    socialTax := some 9000 }

/-- Claim C5: for grossIncome > 0, on a successful external call each of the
20 numeric fields read off the result object defaults independently to 0
when absent (`Option.getD 0`), and the rest of the TaxSummary is still
populated: details is non-null, no error, non-empty breakdown. -/
theorem details_fields_default (ext : ExtCalc) (inputs : CalculationInputs)
    (year : Int) (p : Paycheck) (hpos : 0 < inputs.grossIncome)
    (hok : extCall ext inputs year = .ok p) :
    ∃ d : Details,
      (useBox1Calculator ext inputs year).details = some d ∧
      d.inputIncome = inputs.grossIncome ∧
      d.inputPeriod = inputs.period ∧
      d.grossYear = p.grossYear.getD 0 ∧
      d.grossMonth = p.grossMonth.getD 0 ∧
      d.grossWeek = p.grossWeek.getD 0 ∧
      d.grossDay = p.grossDay.getD 0 ∧
      d.grossHour = p.grossHour.getD 0 ∧
      d.grossAllowance = p.grossAllowance.getD 0 ∧
      d.taxableYear = p.taxableYear.getD 0 ∧
      d.taxFree = p.taxFree.getD 0 ∧
      d.payrollTax = p.payrollTax.getD 0 ∧
      d.socialTax = p.socialTax.getD 0 ∧
      d.generalCredit = p.generalCredit.getD 0 ∧
      d.labourCredit = p.labourCredit.getD 0 ∧
      d.incomeTax = p.incomeTax.getD 0 ∧
      d.incomeTaxMonth = p.incomeTaxMonth.getD 0 ∧
      d.netYear = p.netYear.getD 0 ∧
      d.netMonth = p.netMonth.getD 0 ∧
      d.netWeek = p.netWeek.getD 0 ∧
      d.netDay = p.netDay.getD 0 ∧
      d.netHour = p.netHour.getD 0 ∧
      d.netAllowance = p.netAllowance.getD 0 ∧
      (useBox1Calculator ext inputs year).error = none ∧
      (useBox1Calculator ext inputs year).breakdown ≠ [] := by
  have hn : ¬ inputs.grossIncome ≤ 0 := not_le.mpr hpos
  refine ⟨mkDetails inputs p, ?_, rfl, rfl, rfl, rfl, rfl, rfl, rfl, rfl,
    rfl, rfl, rfl, rfl, rfl, rfl, rfl, rfl, rfl, rfl, rfl, rfl, rfl, rfl,
    ?_, ?_⟩
  · simp [useBox1Calculator, hn, hok]
  · simp [useBox1Calculator, hn, hok]
  · simp [useBox1Calculator, hn, hok, mkBreakdown]

/-- Witness for C5: grossIncome = 60000 and a paycheck with most fields
absent; the absent `grossMonth` defaults to 0 while details stays non-null. -/
theorem details_fields_default_witness :
    ∃ d : Details,
      (useBox1Calculator (wOk wPaycheck) (wInputs 60000) 2025).details =
        some d ∧
      d.grossMonth = 0 ∧ d.grossYear = 60000 := by
  obtain ⟨d, hd, -, -, hgy, hgm, hrest⟩ :=
    details_fields_default (wOk wPaycheck) (wInputs 60000) 2025 wPaycheck
      (by norm_num [wInputs]) rfl
  exact ⟨d, hd, by rw [hgm]; rfl, by rw [hgy]; rfl⟩

/-- Claim C8: estimatedTax is always non-negative; it is 0 on the
zero-income and error paths and `|incomeTax|` (with the `?? 0` default) on
the success path. -/
theorem estimatedTax_nonneg (ext : ExtCalc) (inputs : CalculationInputs)
    (year : Int) :
    0 ≤ (useBox1Calculator ext inputs year).estimatedTax ∧
    (inputs.grossIncome ≤ 0 →
      (useBox1Calculator ext inputs year).estimatedTax = 0) ∧
    (∀ msg, extCall ext inputs year = .error msg →
      (useBox1Calculator ext inputs year).estimatedTax = 0) ∧
    (∀ p : Paycheck, 0 < inputs.grossIncome →
      extCall ext inputs year = .ok p →
      (useBox1Calculator ext inputs year).estimatedTax =
        |p.incomeTax.getD 0|) := by
  by_cases hle : inputs.grossIncome ≤ 0
  · refine ⟨?_, ?_, ?_, ?_⟩ <;>
      simp [useBox1Calculator, hle, emptySummary]
  · cases hcall : extCall ext inputs year with
    | error msg =>
      refine ⟨?_, ?_, ?_, ?_⟩ <;>
        simp [useBox1Calculator, hle, hcall]
    | ok p =>
      refine ⟨?_, ?_, ?_, ?_⟩ <;>
        simp [useBox1Calculator, hle, hcall, mkDetails, abs_nonneg]

/-- Witness for C8: a negative incomeTax (-14000) is flipped to 14000 on the
success path. -/
theorem estimatedTax_nonneg_witness :
    (useBox1Calculator (wOk wPaycheck) (wInputs 60000) 2025).estimatedTax =
      |(-14000 : ℚ)| :=
  ((estimatedTax_nonneg (wOk wPaycheck) (wInputs 60000) 2025).2.2.2 wPaycheck
    (by norm_num [wInputs]) rfl).trans (by rfl)

/-- Claim C9: details is null iff the breakdown is empty; every non-null
details comes with a breakdown of at least the seven unconditional rows. -/
theorem details_none_iff_breakdown_nil (ext : ExtCalc)
    (inputs : CalculationInputs) (year : Int) :
    ((useBox1Calculator ext inputs year).details = none ↔
      (useBox1Calculator ext inputs year).breakdown = []) ∧
    (∀ d : Details, (useBox1Calculator ext inputs year).details = some d →
      7 ≤ (useBox1Calculator ext inputs year).breakdown.length) := by
  by_cases hle : inputs.grossIncome ≤ 0
  · simp [useBox1Calculator, hle, emptySummary]
  · cases hcall : extCall ext inputs year with
    | error msg => simp [useBox1Calculator, hle, hcall]
    | ok p =>
      constructor
      · simp [useBox1Calculator, hle, hcall, mkBreakdown]
      · intro d _
        simp only [useBox1Calculator, hle, if_false, hcall, mkBreakdown]
        simp [List.length_append]
        split_ifs <;> simp

/-- Witness for C9: a successful result has non-null details and at least
seven breakdown rows. -/
theorem details_none_iff_breakdown_nil_witness :
    7 ≤ (useBox1Calculator (wOk wPaycheck) (wInputs 60000) 2025).breakdown.length := by
  refine (details_none_iff_breakdown_nil (wOk wPaycheck) (wInputs 60000)
    2025).2 (mkDetails (wInputs 60000) wPaycheck) ?_
  rfl

/-- Normal form of the hook's success path: with positive income and a
successful external call, the result is assembled from `mkDetails` and
`mkBreakdown`. -/
theorem useBox1Calculator_ok (ext : ExtCalc) (inputs : CalculationInputs)
    (year : Int) (p : Paycheck) (hpos : 0 < inputs.grossIncome)
    (hok : extCall ext inputs year = .ok p) :
    useBox1Calculator ext inputs year =
      { taxableBase := (mkDetails inputs p).taxableYear,
        estimatedTax := |(mkDetails inputs p).incomeTax|,
        netIncome := (mkDetails inputs p).netYear,
        breakdown := mkBreakdown inputs (mkDetails inputs p),
        details := some (mkDetails inputs p),
        error := none } := by
  have hn : ¬ inputs.grossIncome ≤ 0 := not_le.mpr hpos
  simp [useBox1Calculator, hn, hok]

/-- The fixed order of all possible breakdown descriptions (lines 141-194):
every breakdown is this list with the absent conditional rows removed. -/
def fullRowOrder : List String :=
  ["Gross annual income", "Holiday allowance (8%)",
   "30% ruling tax-free amount", "Taxable income", "Payroll tax",
   "Social security contributions", "General tax credit",
   "Labour tax credit", "Total income tax", "Net annual income"]

/-- Claim C4: in every successfully computed TaxSummary the breakdown rows
appear in the fixed order (its description list is a sublist of
`fullRowOrder`), and the three conditional rows are present exactly under
their conditions: holiday allowance iff grossAllowance > 0, the 30%-ruling
row iff taxFree > 0, social security iff the input flag is set. -/
theorem breakdown_order_and_conditions (ext : ExtCalc)
    (inputs : CalculationInputs) (year : Int) (p : Paycheck)
    (hpos : 0 < inputs.grossIncome)
    (hok : extCall ext inputs year = .ok p) :
    List.Sublist
      ((useBox1Calculator ext inputs year).breakdown.map Row.description)
      fullRowOrder ∧
    ("Holiday allowance (8%)" ∈
        (useBox1Calculator ext inputs year).breakdown.map Row.description ↔
      0 < p.grossAllowance.getD 0) ∧
    ("30% ruling tax-free amount" ∈
        (useBox1Calculator ext inputs year).breakdown.map Row.description ↔
      0 < p.taxFree.getD 0) ∧
    ("Social security contributions" ∈
        (useBox1Calculator ext inputs year).breakdown.map Row.description ↔
      inputs.socialSecurity = true) := by
  have hn : ¬ inputs.grossIncome ≤ 0 := not_le.mpr hpos
  by_cases h1 : 0 < p.grossAllowance.getD 0 <;>
    by_cases h2 : 0 < p.taxFree.getD 0 <;>
      by_cases h3 : inputs.socialSecurity = true <;>
        refine ⟨?_, ?_, ?_, ?_⟩ <;>
          (simp [useBox1Calculator, hn, hok, mkBreakdown, mkDetails,
            fullRowOrder, h1, h2, h3]; try decide)

/-- Witness for C4: with `wPaycheck` (no allowance, no tax-free amount,
social security on) exactly the social-security conditional row appears. -/
theorem breakdown_order_and_conditions_witness :
    "Social security contributions" ∈
      (useBox1Calculator (wOk wPaycheck) (wInputs 60000)
        2025).breakdown.map Row.description ∧
    ¬ "Holiday allowance (8%)" ∈
      (useBox1Calculator (wOk wPaycheck) (wInputs 60000)
        2025).breakdown.map Row.description := by
  obtain ⟨-, hall, -, hsoc⟩ :=
    breakdown_order_and_conditions (wOk wPaycheck) (wInputs 60000) 2025
      wPaycheck (by norm_num [wInputs]) rfl
  refine ⟨hsoc.mpr rfl, fun hmem => ?_⟩
  have := hall.mp hmem
  revert this
  decide

/-- Claim C10: in every successfully computed TaxSummary, taxableBase is the
amount of the "Taxable income" row and netIncome the amount of the
"Net annual income" row; those rows are present and carry no other amount. -/
theorem figures_match_breakdown (ext : ExtCalc) (inputs : CalculationInputs)
    (year : Int) (p : Paycheck) (hpos : 0 < inputs.grossIncome)
    (hok : extCall ext inputs year = .ok p) :
    (⟨"Taxable income", (useBox1Calculator ext inputs year).taxableBase⟩ : Row)
        ∈ (useBox1Calculator ext inputs year).breakdown ∧
    (⟨"Net annual income", (useBox1Calculator ext inputs year).netIncome⟩ : Row)
        ∈ (useBox1Calculator ext inputs year).breakdown ∧
    (∀ r ∈ (useBox1Calculator ext inputs year).breakdown,
      r.description = "Taxable income" →
      r.amount = (useBox1Calculator ext inputs year).taxableBase) ∧
    (∀ r ∈ (useBox1Calculator ext inputs year).breakdown,
      r.description = "Net annual income" →
      r.amount = (useBox1Calculator ext inputs year).netIncome) := by
  rw [useBox1Calculator_ok ext inputs year p hpos hok]
  by_cases h1 : 0 < p.grossAllowance.getD 0 <;>
    by_cases h2 : 0 < p.taxFree.getD 0 <;>
      by_cases h3 : inputs.socialSecurity = true <;>
        refine ⟨?_, ?_, ?_, ?_⟩ <;>
          simp [mkBreakdown, mkDetails, h1, h2, h3]

/-- Witness for C10: the taxable-income row of the concrete summary carries
its taxableBase. -/
theorem figures_match_breakdown_witness :
    (⟨"Taxable income",
        (useBox1Calculator (wOk wPaycheck) (wInputs 60000) 2025).taxableBase⟩ : Row)
      ∈ (useBox1Calculator (wOk wPaycheck) (wInputs 60000) 2025).breakdown :=
  (figures_match_breakdown (wOk wPaycheck) (wInputs 60000) 2025 wPaycheck
    (by norm_num [wInputs]) rfl).1

/-- The example inputs of the spec: income 60000, yearly, social security on,
ruling disabled (remaining fields per `BOX1_EMPTY_FORM`). -/
def inputs60000 : CalculationInputs :=
  { grossIncome := 60000, period := "yearly", hoursPerWeek := 40,
    holidayAllowanceIncluded := true, older := false,
    ruling30Enabled := false, ruling30Category := "other",
    socialSecurity := true }

/-- Claim C7: for income 60000, yearly, social security on, ruling disabled,
when the (opaque) external calculator reports grossYear = 60000, the
breakdown's first row is (Gross annual income, 60000) and its last row is
(Net annual income, netYear). -/
theorem example_rows_60000 (ext : ExtCalc) (year : Int) (p : Paycheck)
    (hok : extCall ext inputs60000 year = .ok p)
    (hgy : p.grossYear = some 60000) :
    (useBox1Calculator ext inputs60000 year).breakdown.head? =
      some ⟨"Gross annual income", 60000⟩ ∧
    (useBox1Calculator ext inputs60000 year).breakdown.getLast? =
      some ⟨"Net annual income", p.netYear.getD 0⟩ := by
  rw [useBox1Calculator_ok ext inputs60000 year p (by norm_num [inputs60000])
    hok]
  by_cases h1 : 0 < p.grossAllowance.getD 0 <;>
    by_cases h2 : 0 < p.taxFree.getD 0 <;>
      constructor <;>
        simp [mkBreakdown, mkDetails, inputs60000, h1, h2, hgy,
          List.getLast?_cons_cons]

/-- Witness for C7 with a concrete paycheck returning grossYear 60000. -/
theorem example_rows_60000_witness :
    (useBox1Calculator (wOk wPaycheck) inputs60000 2025).breakdown.head? =
      some ⟨"Gross annual income", 60000⟩ ∧
    (useBox1Calculator (wOk wPaycheck) inputs60000 2025).breakdown.getLast? =
      some ⟨"Net annual income", 41556⟩ := by
  obtain ⟨h1, h2⟩ :=
    example_rows_60000 (wOk wPaycheck) 2025 wPaycheck rfl rfl
  exact ⟨h1, h2.trans (by rfl)⟩

end IncomeTaxNL
